import Mathlib

/-!
Verification development for the Document-Buddy-App ingestion pipeline
(`vectors.py`, class `EmbeddingsManager`, plus the UI glue in `new.py`).

The pipeline logic of `vectors.py` is embedded shallowly:

* `extOf` models `os.path.splitext(p)[1]` for POSIX paths (the app feeds
  loaders temp-file paths produced by `tempfile.NamedTemporaryFile`).
* `pythonLower` models `str.lower()` on ASCII (all dispatched extensions
  are ASCII).
* `JVal`, `dumpsVal`, `text_items`, `json_extract_func` model the JSON
  value universe and `EmbeddingsManager._json_extract_func` together with
  `json.dumps(value, indent=2)`.  Python `float` values are outside the
  model (floating point); no claim depends on them.
* `get_loader`, `get_chunk_settings`, `get_css_splitter`,
  `get_html_splitter`, `get_text_splitter` model the dispatch methods.
* `create_embeddings` models the orchestration of
  `EmbeddingsManager.create_embeddings`, with the external library calls
  (`loader.load()`, `text_splitter.split_documents`,
  `Qdrant.from_documents`) abstracted as function parameters.
-/

/-- ASCII lowercase of one character, as CPython `str.lower` acts on
ASCII letters; other characters are returned unchanged. -/
def lowerChar (c : Char) : Char :=
  if 'A' ≤ c ∧ c ≤ 'Z' then Char.ofNat (c.toNat + 32) else c

/-- Model of Python `s.lower()` restricted to ASCII case mapping (every
extension string the source compares against is ASCII). -/
def pythonLower (s : String) : String :=
  String.mk (s.data.map lowerChar)

/-- Index of the last occurrence of `c` in `l` (Python `str.rfind`,
with `none` for the -1 "absent" result). -/
def lastIdxOf (c : Char) : List Char → Option Nat
  | [] => none
  | x :: xs =>
    match lastIdxOf c xs with
    | some i => some (i + 1)
    | none => if x = c then some 0 else none

/-- Model of `os.path.splitext(p)[1]` for POSIX paths: the suffix of `p`
starting at the last dot, provided that dot lies after the last path
separator and at least one character of the basename before it is not a
dot (leading dots of the basename never start an extension). -/
def extOf (p : String) : String :=
  let cs := p.data
  match lastIdxOf '.' cs with
  | none => ""
  | some d =>
    let start :=
      match lastIdxOf '/' cs with
      | none => 0
      | some s => s + 1
    if start ≤ d then
      if ((cs.drop start).take (d - start)).any (fun ch => ch ≠ '.') then
        String.mk (cs.drop d)
      else ""
    else ""

/-- JSON values as `json.load` hands them to the loader's
`extract_func`: strings, ints, booleans, `None`, arrays and objects
(insertion-ordered key/value lists).  Python `float` is outside the
model (floating point). -/
inductive JVal where
  | str (s : String)
  | int (n : Int)
  | bool (b : Bool)
  | null
  | list (xs : List JVal)
  | dict (fs : List (String × JVal))

/-- `true` exactly on the `null` value. -/
def JVal.isNull : JVal → Bool
  | .null => true
  | _ => false

/-- Lowercase hexadecimal digit. -/
def hexDigit (n : Nat) : Char :=
  if n < 10 then Char.ofNat (48 + n) else Char.ofNat (87 + n)

/-- Four-digit lowercase hexadecimal rendering, as in `\uXXXX`. -/
def hex4 (n : Nat) : String :=
  String.mk [hexDigit (n / 4096 % 16), hexDigit (n / 256 % 16),
             hexDigit (n / 16 % 16), hexDigit (n % 16)]

/-- Escaping of one character inside a JSON string literal, as CPython
`json.dumps` with the default `ensure_ascii=True`: the two-character
escapes for quote, backslash and control characters that have them,
`\uXXXX` for other non-printable or non-ASCII characters, surrogate
pairs for astral code points. -/
def escapeChar (c : Char) : List Char :=
  if c = '\\' then ['\\', '\\']
  else if c = '"' then ['\\', '"']
  else if c = '\n' then ['\\', 'n']
  else if c = '\r' then ['\\', 'r']
  else if c = '\t' then ['\\', 't']
  else if c.toNat = 8 then ['\\', 'b']
  else if c.toNat = 12 then ['\\', 'f']
  else if 0x20 ≤ c.toNat ∧ c.toNat ≤ 0x7e then [c]
  else if c.toNat < 0x10000 then '\\' :: 'u' :: (hex4 c.toNat).data
  else
    let v := c.toNat - 0x10000
    ('\\' :: 'u' :: (hex4 (0xd800 + v / 0x400)).data)
      ++ ('\\' :: 'u' :: (hex4 (0xdc00 + v % 0x400)).data)

/-- A JSON string literal: quotes around the escaped characters. -/
def quoteJson (s : String) : String :=
  "\"" ++ String.mk ((s.data.map escapeChar).flatten) ++ "\""

/-- `indent=2` whitespace prefix at nesting level `lvl`. -/
def indentStr (lvl : Nat) : String :=
  String.mk (List.replicate (2 * lvl) ' ')

mutual

/-- Model of `json.dumps(v, indent=2)` rendered at nesting level
`lvl`: scalars inline, non-empty arrays and objects spread over
indented lines, `[]` and `\x7b\x7d` for the empty ones. -/
def dumpsVal (lvl : Nat) : JVal → String
  | .str s => quoteJson s
  | .int n => toString n
  | .bool b => if b then "true" else "false"
  | .null => "null"
  | .list [] => "[]"
  | .list (x :: xs) =>
      "[\n" ++ dumpsItems (lvl + 1) (x :: xs) ++ "\n" ++ indentStr lvl ++ "]"
  | .dict [] => "\x7b\x7d"
  | .dict (f :: fs) =>
      "\x7b\n" ++ dumpsFields (lvl + 1) (f :: fs) ++ "\n" ++ indentStr lvl ++ "\x7d"

/-- Array elements, one per line, separated by `,\n`. -/
def dumpsItems (lvl : Nat) : List JVal → String
  | [] => ""
  | [x] => indentStr lvl ++ dumpsVal lvl x
  | x :: y :: xs =>
      indentStr lvl ++ dumpsVal lvl x ++ ",\n" ++ dumpsItems lvl (y :: xs)

/-- Object entries, one `"key": value` per line, separated by `,\n`. -/
def dumpsFields (lvl : Nat) : List (String × JVal) → String
  | [] => ""
  | [(k, v)] => indentStr lvl ++ quoteJson k ++ ": " ++ dumpsVal lvl v
  | (k, v) :: f :: fs =>
      indentStr lvl ++ quoteJson k ++ ": " ++ dumpsVal lvl v ++ ",\n"
        ++ dumpsFields lvl (f :: fs)

end

/-- The loop body of `EmbeddingsManager._json_extract_func`: for each
key in order, a scalar value (`str`, `int`, `bool`; Python hits the
`isinstance(value, (str, int, float, bool))` branch) contributes the
line `f"\x7bkey\x7d: \x7bvalue\x7d"` with Python `str()` formatting
(`True`/`False` for booleans), a `dict` or `list` value contributes
`f"\x7bkey\x7d: \x7bjson.dumps(value, indent=2)\x7d"`, and any other
value (`None`) matches neither `isinstance` branch and is skipped. -/
def text_items : List (String × JVal) → List String
  | [] => []
  | (key, value) :: rest =>
    match value with
    | .str s => (key ++ ": " ++ s) :: text_items rest
    | .int n => (key ++ ": " ++ toString n) :: text_items rest
    | .bool b => (key ++ ": " ++ (if b then "True" else "False")) :: text_items rest
    | .list xs => (key ++ ": " ++ dumpsVal 0 (.list xs)) :: text_items rest
    | .dict fs => (key ++ ": " ++ dumpsVal 0 (.dict fs)) :: text_items rest
    | .null => text_items rest

/-- `EmbeddingsManager._json_extract_func`: the collected text items
joined with `"\n".join(text_items)`. -/
def json_extract_func (data : List (String × JVal)) : String :=
  String.intercalate "\n" (text_items data)

/-- The line `_json_extract_func` emits for key `k` and value `v`, or
`none` when the value is skipped.  Statement-side companion of
`text_items`, used to phrase per-key membership properties. -/
def line_of (k : String) : JVal → Option String
  | .str s => some (k ++ ": " ++ s)
  | .int n => some (k ++ ": " ++ toString n)
  | .bool b => some (k ++ ": " ++ (if b then "True" else "False"))
  | .list xs => some (k ++ ": " ++ dumpsVal 0 (.list xs))
  | .dict fs => some (k ++ ": " ++ dumpsVal 0 (.dict fs))
  | .null => none

/-- The loader classes `_get_loader` can return.  `CSVLoader` is absent:
the `.csv` branch never completes (see `get_loader`). -/
inductive LoaderKind where
  | unstructuredPDF
  | unstructuredMarkdown
  | textLoader
  | jsonLoader
  | unstructuredXML
  | bsHTML
  deriving DecidableEq

/-- Outcome of `EmbeddingsManager._get_loader`. -/
inductive LoaderResult where
  | loader (k : LoaderKind)
  | attributeError
  | unsupported (ext : String)
  deriving DecidableEq

/-- `EmbeddingsManager._get_loader`: dispatch on
`os.path.splitext(file_path)[1].lower()`.  The `.csv` branch evaluates
`self._get_csv_columns(file_path)` while building the `CSVLoader`
arguments, but class `EmbeddingsManager` defines no method
`_get_csv_columns`, so that branch raises `AttributeError` before any
loader is constructed; every unknown extension raises
`ValueError(f"Unsupported file type: \x7bfile_extension\x7d")`. -/
def get_loader (file_path : String) : LoaderResult :=
  let file_extension := pythonLower (extOf file_path)
  if file_extension = ".pdf" then .loader .unstructuredPDF
  else if file_extension = ".md" then .loader .unstructuredMarkdown
  else if file_extension = ".ts" ∨ file_extension = ".tsx" then .loader .textLoader
  else if file_extension = ".csv" then .attributeError
  else if file_extension = ".json" then .loader .jsonLoader
  else if file_extension = ".xml" then .loader .unstructuredXML
  else if file_extension = ".html" then .loader .bsHTML
  else if file_extension = ".css" ∨ file_extension = ".scss" then .loader .textLoader
  else .unsupported file_extension

/-- The chunk-size/chunk-overlap pair `_get_chunk_settings` returns. -/
structure ChunkSettings where
  chunk_size : Nat
  chunk_overlap : Nat
  deriving DecidableEq

/-- The `settings` dict literal of `_get_chunk_settings`, in source
order, including its `default` entry. -/
def chunk_settings_table : List (String × ChunkSettings) :=
  [(".csv", ⟨500, 50⟩),
   (".json", ⟨800, 100⟩),
   (".xml", ⟨800, 100⟩),
   (".html", ⟨1000, 200⟩),
   (".css", ⟨800, 100⟩),
   (".scss", ⟨800, 100⟩),
   ("default", ⟨1000, 250⟩)]

/-- `EmbeddingsManager._get_chunk_settings`:
`settings.get(file_extension, settings["default"])` over the lowered
extension. -/
def get_chunk_settings (file_path : String) : ChunkSettings :=
  let file_extension := pythonLower (extOf file_path)
  match chunk_settings_table.lookup file_extension with
  | some s => s
  | none => ⟨1000, 250⟩

/-- The text splitters `_get_text_splitter` can hand back:
`RecursiveCharacterTextSplitter(chunk_size, chunk_overlap, separators)`,
`RecursiveCharacterTextSplitter.from_language(Language.CSS, ...)`, and
`HTMLHeaderTextSplitter(headers_to_split_on)` (which takes no size or
overlap parameters). -/
inductive TextSplitter where
  | recursive (chunk_size chunk_overlap : Nat) (separators : List String)
  | cssLanguage (chunk_size chunk_overlap : Nat)
  | htmlHeader (headers_to_split_on : List (String × String))
  deriving DecidableEq

/-- `EmbeddingsManager._get_css_splitter`. -/
def get_css_splitter : TextSplitter :=
  .cssLanguage 800 100

/-- `EmbeddingsManager._get_html_splitter`. -/
def get_html_splitter : TextSplitter :=
  .htmlHeader [("h1", "Header 1"), ("h2", "Header 2"),
               ("h3", "Header 3"), ("h4", "Header 4")]

/-- `EmbeddingsManager._get_text_splitter`: CSS/SCSS get the
language-aware splitter, HTML the header splitter, everything else the
generic recursive splitter with that file's chunk settings. -/
def get_text_splitter (file_path : String) : TextSplitter :=
  let file_extension := pythonLower (extOf file_path)
  if file_extension = ".css" ∨ file_extension = ".scss" then get_css_splitter
  else if file_extension = ".html" then get_html_splitter
  else
    let chunk_settings := get_chunk_settings file_path
    .recursive chunk_settings.chunk_size chunk_settings.chunk_overlap
      ["\n\n", "\n", " ", ""]

/-- `true` exactly on the header-aware splitter. -/
def is_header_aware : TextSplitter → Bool
  | .htmlHeader _ => true
  | _ => false

/-- The Python exceptions `create_embeddings` can raise, by class and
message. -/
inductive PyError where
  | fileNotFoundError (msg : String)
  | valueError (msg : String)
  | attributeError (msg : String)
  | connectionError (msg : String)
  deriving DecidableEq

/-- The exception class alone, forgetting the message. -/
inductive PyErrorKind where
  | fileNotFoundK
  | valueK
  | attributeK
  | connectionK
  deriving DecidableEq

/-- Class of a raised exception. -/
def kindOf : PyError → PyErrorKind
  | .fileNotFoundError _ => .fileNotFoundK
  | .valueError _ => .valueK
  | .attributeError _ => .attributeK
  | .connectionError _ => .connectionK

/-- Outcome of the external `Qdrant.from_documents` call: success, or
some exception whose rendered text is `msg`. -/
inductive QdrantOutcome where
  | success
  | failure (msg : String)

/-- The literal string returned by `create_embeddings` on success
(the exact characters stored in the source file). -/
def successMessage : String :=
  "âœ… Vector DB Successfully Created and Stored in Qdrant!"

/-- `EmbeddingsManager.create_embeddings`, with the external effects as
parameters: `file_exists` stands for `os.path.exists(file_path)`,
`load` for `loader.load()` (a list of document texts for the dispatched
loader), `split_documents` for `text_splitter.split_documents(docs)`,
and `qdrant_from_documents` for `Qdrant.from_documents(splits, ...,
collection_name=...)`.  The control flow — existence check, loader
dispatch, empty-docs check, splitting, empty-splits check, and the
`try/except` that rewraps every store exception as
`ConnectionError(f"Failed to connect to Qdrant: \x7be\x7d")` — follows
the source line by line. -/
def create_embeddings (file_path : String) (file_exists : Bool)
    (load : LoaderKind → List String)
    (split_documents : TextSplitter → List String → List String)
    (qdrant_from_documents : List String → String → QdrantOutcome)
    (collection_name : String) : Except PyError String :=
  if !file_exists then
    .error (.fileNotFoundError ("The file " ++ file_path ++ " does not exist."))
  else
    match get_loader file_path with
    | .unsupported e => .error (.valueError ("Unsupported file type: " ++ e))
    | .attributeError =>
        .error (.attributeError "EmbeddingsManager object has no attribute _get_csv_columns")
    | .loader k =>
      let docs := load k
      if docs.isEmpty then
        .error (.valueError "No documents were loaded from the file.")
      else
        let text_splitter := get_text_splitter file_path
        let splits := split_documents text_splitter docs
        if splits.isEmpty then
          .error (.valueError "No text chunks were created from the documents.")
        else
          match qdrant_from_documents splits collection_name with
          | .success => .ok successMessage
          | .failure msg =>
              .error (.connectionError ("Failed to connect to Qdrant: " ++ msg))

/-- The `\x7b"a": 1, "b": [1, 2, 3]\x7d` input of the spec's
Scenario B. -/
def scenarioB : List (String × JVal) :=
  [("a", JVal.int 1), ("b", JVal.list [JVal.int 1, JVal.int 2, JVal.int 3])]

/-- The lines of a text: the text split at newline characters
(statement-side helper). -/
def linesOf (s : String) : List String :=
  (s.data.splitOn '\n').map String.mk

/-! ## Helper lemmas -/

/-- A value returned by `List.lookup` is one of the stored values. -/
theorem lookup_val_mem {α β : Type} [BEq α] (t : List (α × β)) (e : α) (s : β)
    (h : List.lookup e t = some s) : s ∈ t.map Prod.snd := by
  induction t with
  | nil => simp [List.lookup] at h
  | cons kv rest ih =>
    obtain ⟨k, v⟩ := kv
    rw [List.lookup] at h
    split at h
    · obtain rfl : v = s := by injection h
      exact List.mem_cons_self _ _
    · exact List.mem_cons_of_mem _ (ih h)

/-- Every key/value pair whose value is not skipped contributes its line
to the output of the `_json_extract_func` loop. -/
theorem mem_text_items (fields : List (String × JVal)) (k : String) (v : JVal)
    (s : String) (hmem : (k, v) ∈ fields) (hline : line_of k v = some s) :
    s ∈ text_items fields := by
  induction fields with
  | nil => cases hmem
  | cons kv rest ih =>
    rcases List.mem_cons.mp hmem with h | h
    · obtain rfl : kv = (k, v) := h.symm
      cases v with
      | str t =>
        obtain rfl : _ = s := by injection hline
        exact List.mem_cons_self _ _
      | int n =>
        obtain rfl : _ = s := by injection hline
        exact List.mem_cons_self _ _
      | bool b =>
        obtain rfl : _ = s := by injection hline
        exact List.mem_cons_self _ _
      | null => cases hline
      | list xs =>
        obtain rfl : _ = s := by injection hline
        exact List.mem_cons_self _ _
      | dict fs =>
        obtain rfl : _ = s := by injection hline
        exact List.mem_cons_self _ _
    · obtain ⟨k₀, v₀⟩ := kv
      cases v₀ <;> simp only [text_items] <;>
        first
          | exact ih h
          | exact List.mem_cons_of_mem _ (ih h)

/-! ## Claims -/

/-- Claim C1, counterexample: the source-code extension `.ts` does not
get the contract table's 800/150 — `_get_chunk_settings` has no `.ts`
entry, so it falls back to the 1000/250 default. -/
theorem c1_counterexample :
    get_chunk_settings "component.ts" = ⟨1000, 250⟩
    ∧ get_chunk_settings "component.ts" ≠ ⟨800, 150⟩ := by
  decide

/-- Claim C1 (amended): out of the box, tabular (.csv) gets 500/50,
structured (.json) 800/100 (inside the table's 500–800/100), markup
(.xml/.html) 800/100 and 1000/200 (inside 800–1000 and 100–200),
stylesheet (.css/.scss) 800/100 (inside 600–800/100), prose/generic
(.pdf/.md) 1000/250 (size 1000, overlap inside 200–250); the
source-code extensions (.ts/.tsx) deviate from the table and get the
generic default 1000/250 instead of 800/150. -/
theorem c1_amended (p : String) :
    (pythonLower (extOf p) = ".csv" → get_chunk_settings p = ⟨500, 50⟩)
    ∧ (pythonLower (extOf p) = ".json" →
        500 ≤ (get_chunk_settings p).chunk_size
        ∧ (get_chunk_settings p).chunk_size ≤ 800
        ∧ (get_chunk_settings p).chunk_overlap = 100)
    ∧ (pythonLower (extOf p) = ".xml" ∨ pythonLower (extOf p) = ".html" →
        800 ≤ (get_chunk_settings p).chunk_size
        ∧ (get_chunk_settings p).chunk_size ≤ 1000
        ∧ 100 ≤ (get_chunk_settings p).chunk_overlap
        ∧ (get_chunk_settings p).chunk_overlap ≤ 200)
    ∧ (pythonLower (extOf p) = ".css" ∨ pythonLower (extOf p) = ".scss" →
        600 ≤ (get_chunk_settings p).chunk_size
        ∧ (get_chunk_settings p).chunk_size ≤ 800
        ∧ (get_chunk_settings p).chunk_overlap = 100)
    ∧ (pythonLower (extOf p) = ".pdf" ∨ pythonLower (extOf p) = ".md" →
        (get_chunk_settings p).chunk_size = 1000
        ∧ 200 ≤ (get_chunk_settings p).chunk_overlap
        ∧ (get_chunk_settings p).chunk_overlap ≤ 250)
    ∧ (pythonLower (extOf p) = ".ts" ∨ pythonLower (extOf p) = ".tsx" →
        get_chunk_settings p = ⟨1000, 250⟩) := by
  refine ⟨?_, ?_, ?_, ?_, ?_, ?_⟩ <;>
    first
      | (intro h
         simp only [get_chunk_settings, h]
         decide)
      | (rintro (h | h) <;>
          · simp only [get_chunk_settings, h]
            decide)

/-- Claim C1, witness for the amended statement at `.csv` and `.tsx`
inputs. -/
theorem c1_witness :
    get_chunk_settings "table.csv" = ⟨500, 50⟩
    ∧ get_chunk_settings "component.tsx" = ⟨1000, 250⟩ :=
  ⟨(c1_amended "table.csv").1 rfl,
   (c1_amended "component.tsx").2.2.2.2.2 (Or.inr rfl)⟩

/-- Claim C2: the `.csv` branch of `_get_loader` calls
`self._get_csv_columns(file_path)`, but `EmbeddingsManager` defines no
such method, so classifying any `.csv` identity (in either letter case)
raises `AttributeError` instead of returning the one CSV loader the
claim requires. -/
theorem c2_csv_attribute_error :
    get_loader "data.csv" = LoaderResult.attributeError
    ∧ get_loader "DATA.CSV" = LoaderResult.attributeError := by
  decide

/-- Claim C3, counterexample: a `.txt` identity does not dispatch to a
loader — it falls through every branch of `_get_loader` and fails as an
unsupported file type. -/
theorem c3_counterexample :
    get_loader "notes.txt" = LoaderResult.unsupported ".txt" := by
  decide

/-- Claim C3 (amended): `.txt` is not in the supported extension set;
every identity whose lowered extension is `.txt` fails with the
unsupported-format `ValueError` rather than proceeding, while the
plain-text `TextLoader` is reserved for the `.ts`/`.tsx` (and
`.css`/`.scss`) extensions. -/
theorem c3_amended (p : String) :
    (pythonLower (extOf p) = ".txt" → get_loader p = LoaderResult.unsupported ".txt")
    ∧ (pythonLower (extOf p) = ".ts" → get_loader p = LoaderResult.loader .textLoader) := by
  constructor <;>
    · intro h
      simp only [get_loader, h]
      decide

/-- Claim C3, witness for the amended statement at `notes.txt` and
`app.ts`. -/
theorem c3_witness :
    get_loader "notes.txt" = LoaderResult.unsupported ".txt"
    ∧ get_loader "app.ts" = LoaderResult.loader .textLoader :=
  ⟨(c3_amended "notes.txt").1 rfl, (c3_amended "app.ts").2 rfl⟩

/-- Claim C9: for every input path, the chunk settings returned by
`_get_chunk_settings` — any table entry or the default — satisfy
overlap ≤ size. -/
theorem c9_overlap_le_size (p : String) :
    (get_chunk_settings p).chunk_overlap ≤ (get_chunk_settings p).chunk_size := by
  have h2 : get_chunk_settings p =
      match chunk_settings_table.lookup (pythonLower (extOf p)) with
      | some s => s
      | none => ⟨1000, 250⟩ := rfl
  rw [h2]
  cases h : chunk_settings_table.lookup (pythonLower (extOf p)) with
  | none => decide
  | some s =>
    have hm := lookup_val_mem _ _ _ h
    simp only [chunk_settings_table, List.map, List.mem_cons, List.not_mem_nil,
      or_false] at hm
    rcases hm with h1 | h1 | h1 | h1 | h1 | h1 | h1 <;> (rw [h1]; decide)

/-- Claim C4: on the Scenario B input the extraction function produces
the single text `"a: 1\nb: [\n  1,\n  2,\n  3\n]"` — the literal line
`a: 1` (a line of the output), the key `b` followed by the indented
serialization of `[1, 2, 3]`, and not the raw serialized syntax of the
whole object; in general every key whose value is not skipped
contributes its `key: value` line (scalars via `str()`, nested
dicts/lists via the indented `json.dumps`) to the list of text items
that are joined with newlines. -/
theorem c4_structured_flatten :
    json_extract_func scenarioB = "a: 1\nb: [\n  1,\n  2,\n  3\n]"
    ∧ "a: 1" ∈ linesOf (json_extract_func scenarioB)
    ∧ json_extract_func scenarioB ≠ dumpsVal 0 (JVal.dict scenarioB)
    ∧ ∀ (fields : List (String × JVal)) (k : String) (v : JVal) (s : String),
        (k, v) ∈ fields → line_of k v = some s → s ∈ text_items fields := by
  refine ⟨by decide, by decide, by decide, ?_⟩
  intro fields k v s hmem hline
  exact mem_text_items fields k v s hmem hline

/-- Claim C4, witness: the general per-key part applied to the
Scenario B input at key `a`. -/
theorem c4_witness : "a: 1" ∈ text_items scenarioB :=
  c4_structured_flatten.2.2.2 scenarioB "a" (JVal.int 1) "a: 1"
    (List.mem_cons_self _ _) rfl

/-- Claim C10: a key whose value is `None` is silently skipped by
`_json_extract_func` — it matches neither `isinstance` branch, no text
item is produced and no error is raised: deleting a `None` entry from
anywhere in the mapping leaves the output unchanged, and on
`\x7b"a": None, "b": 2\x7d` the output is exactly `b: 2`. -/
theorem c10_null_skipped :
    text_items [("a", JVal.null), ("b", JVal.int 2)] = ["b: 2"]
    ∧ json_extract_func [("a", JVal.null), ("b", JVal.int 2)] = "b: 2"
    ∧ ∀ (pre post : List (String × JVal)) (k : String),
        text_items (pre ++ (k, JVal.null) :: post) = text_items (pre ++ post) := by
  refine ⟨by decide, by decide, ?_⟩
  intro pre post k
  induction pre with
  | nil => rfl
  | cons kv rest ih =>
    obtain ⟨k₀, v₀⟩ := kv
    rw [List.cons_append, List.cons_append]
    cases v₀ <;> simp only [text_items] <;>
      first
        | exact ih
        | exact congrArg _ ih

/-- Claim C5, counterexample: a load yielding one whitespace-only unit
does not fail with the empty-document error — the `if not docs` check
passes and the pipeline proceeds to chunking, failing there with the
distinct empty-chunk message once the splitter drops the
whitespace-only content. -/
theorem c5_counterexample :
    create_embeddings "doc.pdf" true (fun _ => ["   "]) (fun _ _ => [])
        (fun _ _ => .success) "vector_db"
      = .error (.valueError "No text chunks were created from the documents.")
    ∧ PyError.valueError "No text chunks were created from the documents."
        ≠ PyError.valueError "No documents were loaded from the file." :=
  ⟨rfl, by decide⟩

/-- Claim C5 (amended): for an existing file with a supported loader,
the load stage fails with the empty-document error exactly when the
loader yields zero units; units that are only whitespace pass this
check unexamined, and the pipeline proceeds to chunking (where an empty
chunk set raises the distinct empty-chunk error). -/
theorem c5_amended (p coll : String) (k : LoaderKind)
    (load : LoaderKind → List String)
    (split_documents : TextSplitter → List String → List String)
    (store : List String → String → QdrantOutcome)
    (hk : get_loader p = .loader k) :
    create_embeddings p true load split_documents store coll
        = .error (.valueError "No documents were loaded from the file.")
      ↔ load k = [] := by
  constructor
  · intro h
    by_cases hd : load k = []
    · exact hd
    · exfalso
      have hde : (load k).isEmpty = false := by
        cases hl : load k with
        | nil => exact absurd hl hd
        | cons a l => rfl
      simp [create_embeddings, hk, hde] at h
      split at h
      · simp at h
      · split at h <;> simp at h
  · intro h
    simp [create_embeddings, hk, h]

/-- Claim C5, witness for the amended statement: a pdf input whose
loader yields zero units fails with the empty-document error. -/
theorem c5_witness :
    get_loader "doc.pdf" = LoaderResult.loader LoaderKind.unstructuredPDF
    ∧ create_embeddings "doc.pdf" true (fun _ => []) (fun _ _ => [])
        (fun _ _ => .success) "vector_db"
      = .error (.valueError "No documents were loaded from the file.") :=
  ⟨rfl,
   (c5_amended "doc.pdf" "vector_db" LoaderKind.unstructuredPDF (fun _ => [])
      (fun _ _ => []) (fun _ _ => .success) rfl).mpr rfl⟩

/-- Claim C6, counterexample: the `try/except` around
`Qdrant.from_documents` rewraps a connection failure and a
dimensionality conflict identically — both surface as the single
`ConnectionError` kind, so the two failure kinds are conflated. -/
theorem c6_counterexample :
    create_embeddings "doc.pdf" true (fun _ => ["text"]) (fun _ ds => ds)
        (fun _ _ => .failure "connection refused to localhost:6333") "vector_db"
      = .error (.connectionError
          "Failed to connect to Qdrant: connection refused to localhost:6333")
    ∧ create_embeddings "doc.pdf" true (fun _ => ["text"]) (fun _ ds => ds)
        (fun _ _ => .failure "vector dimensionality conflict with collection vector_db")
        "vector_db"
      = .error (.connectionError
          "Failed to connect to Qdrant: vector dimensionality conflict with collection vector_db")
    ∧ kindOf (.connectionError
          "Failed to connect to Qdrant: connection refused to localhost:6333")
      = kindOf (.connectionError
          "Failed to connect to Qdrant: vector dimensionality conflict with collection vector_db") :=
  ⟨rfl, rfl, rfl⟩

/-- Claim C6 (amended): every exception raised by the store write,
whatever its cause — connection, authentication, or any other
persistence error such as a dimensionality conflict — is reported as
the single `ConnectionError` kind with the message
`Failed to connect to Qdrant: <cause>`; no distinct write-failure kind
exists. -/
theorem c6_amended (p coll msg : String) (k : LoaderKind)
    (load : LoaderKind → List String)
    (split_documents : TextSplitter → List String → List String)
    (hk : get_loader p = .loader k)
    (hd : (load k).isEmpty = false)
    (hs : (split_documents (get_text_splitter p) (load k)).isEmpty = false) :
    create_embeddings p true load split_documents (fun _ _ => .failure msg) coll
      = .error (.connectionError ("Failed to connect to Qdrant: " ++ msg)) := by
  simp [create_embeddings, hk, hd, hs]

/-- Claim C6, witness for the amended statement at an authentication
failure message. -/
theorem c6_witness :
    create_embeddings "doc.pdf" true (fun _ => ["text"]) (fun _ ds => ds)
        (fun _ _ => .failure "unauthorized") "vector_db"
      = .error (.connectionError ("Failed to connect to Qdrant: " ++ "unauthorized")) :=
  c6_amended "doc.pdf" "vector_db" "unauthorized" LoaderKind.unstructuredPDF
    (fun _ => ["text"]) (fun _ ds => ds) rfl rfl rfl

/-- Claim C7, counterexample: Markdown is a markup input (it has its
own loader), yet `_get_text_splitter` hands it the generic recursive
character splitter, not a header-aware strategy. -/
theorem c7_counterexample :
    get_text_splitter "README.md" = TextSplitter.recursive 1000 250 ["\n\n", "\n", " ", ""]
    ∧ is_header_aware (get_text_splitter "README.md") = false
    ∧ get_loader "README.md" = LoaderResult.loader .unstructuredMarkdown := by
  decide

/-- Claim C7 (amended): only HTML gets the header-aware strategy —
`HTMLHeaderTextSplitter` on h1–h4, with no size/overlap parameters and
no recursive fallback configured — while Markdown and XML are split by
the generic recursive character splitter with their chunk settings. -/
theorem c7_amended (p : String) :
    (pythonLower (extOf p) = ".html" →
      get_text_splitter p = TextSplitter.htmlHeader
        [("h1", "Header 1"), ("h2", "Header 2"), ("h3", "Header 3"), ("h4", "Header 4")]
      ∧ is_header_aware (get_text_splitter p) = true)
    ∧ (pythonLower (extOf p) = ".md" ∨ pythonLower (extOf p) = ".xml" →
      get_text_splitter p
        = TextSplitter.recursive (get_chunk_settings p).chunk_size
            (get_chunk_settings p).chunk_overlap ["\n\n", "\n", " ", ""]
      ∧ is_header_aware (get_text_splitter p) = false) := by
  constructor
  · intro h
    constructor <;> simp [get_text_splitter, get_html_splitter, is_header_aware, h]
  · rintro (h | h) <;>
      (constructor <;> simp [get_text_splitter, is_header_aware, h])

/-- Claim C7, witness for the amended statement at `.html` and `.md`
inputs. -/
theorem c7_witness :
    get_text_splitter "index.html" = TextSplitter.htmlHeader
      [("h1", "Header 1"), ("h2", "Header 2"), ("h3", "Header 3"), ("h4", "Header 4")]
    ∧ is_header_aware (get_text_splitter "README.md") = false :=
  ⟨((c7_amended "index.html").1 rfl).1, ((c7_amended "README.md").2 (Or.inl rfl)).2⟩

/-- Claim C8, counterexample: two successful ingestions with different
collection names and different chunk counts return the identical fixed
success string — the value carries neither the collection name nor the
count. -/
theorem c8_counterexample :
    create_embeddings "a.pdf" true (fun _ => ["one chunk"]) (fun _ ds => ds)
        (fun _ _ => .success) "collection_one" = .ok successMessage
    ∧ create_embeddings "b.md" true (fun _ => ["one", "two", "three"]) (fun _ ds => ds)
        (fun _ _ => .success) "collection_two" = .ok successMessage
    ∧ "collection_one" ≠ "collection_two"
    ∧ (["one chunk"] : List String).length ≠ (["one", "two", "three"] : List String).length :=
  ⟨rfl, rfl, by decide, by decide⟩

/-- Claim C8 (amended): whenever `create_embeddings` returns
successfully, the returned value is the one fixed literal
`successMessage`, independent of the input file, the collection name
and the number of chunks written. -/
theorem c8_amended (p coll : String) (fe : Bool)
    (load : LoaderKind → List String)
    (split_documents : TextSplitter → List String → List String)
    (store : List String → String → QdrantOutcome) (s : String)
    (h : create_embeddings p fe load split_documents store coll = .ok s) :
    s = successMessage := by
  unfold create_embeddings at h
  split at h
  · simp at h
  · split at h
    · simp at h
    · simp at h
    · dsimp only at h
      split at h
      · simp at h
      · split at h
        · simp at h
        · split at h
          · injection h with h1
            exact h1.symm
          · simp at h

/-- Claim C8, witness for the amended statement at a concrete
successful run. -/
theorem c8_witness :
    "âœ… Vector DB Successfully Created and Stored in Qdrant!" = successMessage :=
  c8_amended "a.pdf" "vector_db" true (fun _ => ["x"]) (fun _ ds => ds)
    (fun _ _ => .success)
    "âœ… Vector DB Successfully Created and Stored in Qdrant!" rfl

/-- Claim C9, witness at a `.csv` input. -/
theorem c9_witness :
    (get_chunk_settings "data.csv").chunk_overlap ≤ (get_chunk_settings "data.csv").chunk_size :=
  c9_overlap_le_size "data.csv"
